import Mathlib

/-! Verification development for the test-harness orchestrator
`generate_backtest_results.py`: the script unzips a project bundle, builds it,
runs test cases through a local console backend and an optional gRPC
client/server backend, and validates the produced output artifacts.
The Python control flow (loops, `try`/`except`, `sys.exit`) is embedded as
pure Lean functions; external effects (filesystem contents, process exit
statuses, exceptions raised by OS calls) are supplied as explicit environment
parameters, and each function returns the trace of process invocations it
performs together with an `Except` value modelling a normal return or a
propagating Python exception. -/

namespace Backtest

/-- Python exception classes that the script raises, catches or lets
propagate.  `systemExit` models `SystemExit` (raised by `sys.exit(code)`);
`unboundLocalError` models the `UnboundLocalError` raised when an `except`
handler references the local variable `process` before it was bound;
`otherError` stands for any further exception class (such as
`PermissionError` or `KeyboardInterrupt`) that the script never catches. -/
inductive PyExc where
  | systemExit (code : Nat)
  | badZipFile
  | calledProcessError
  | timeoutExpired
  | fileNotFoundError
  | unboundLocalError
  | otherError (name : String)
deriving DecidableEq, Repr

/-- Path concatenation, modelling `pathlib.Path.joinpath` on string paths. -/
def joinpath (a b : String) : String := a ++ "/" ++ b

/-- One spawned child process: executable name plus the positional arguments
passed to it.  `subprocess.run` / `subprocess.Popen` calls are recorded as
values of this type. -/
structure ProcCall where
  exe : String
  args : List String
deriving DecidableEq, Repr

/-- One entry of `test_prop_folder.iterdir()`: a test-case directory with its
name (`test_folder.name`), its full path, whether `test_folder.is_dir()`
holds, and the file names `os.listdir` returns inside it. -/
structure TestFolder where
  name : String
  path : String
  is_dir : Bool
  files : List String
deriving DecidableEq, Repr

/-- Python's `str.endswith`, stated on the character lists of the strings so
that concrete instances evaluate. -/
def pyEndsWith (s ext : String) : Bool := List.isSuffixOf ext.data s.data

/-- Embeds `get_csv_json_from_folder`: partition the directory listing into
the names ending in `.csv` and the names ending in `.json`, in listing
order. -/
def get_csv_json_from_folder (files : List String) : List String × List String :=
  (files.filter (fun filename => pyEndsWith filename ".csv"),
   files.filter (fun filename => pyEndsWith filename ".json"))

/-- Embeds `run_single_console_test`.  The environment `env` gives the exit
status of each console invocation (`subprocess.run(..., check=True)` raises
`CalledProcessError` on a non-zero status).  With a wrong number of `.csv` or
`.json` files the test case is skipped: nothing is invoked and the function
returns normally.  `os.chdir(solution_folder)` mutates ambient state only and
is not recorded.  Returns the invocations performed and the outcome. -/
def run_single_console_test (env : ProcCall → Nat) (t : TestFolder)
    (out_folder : String) : List ProcCall × Except PyExc Unit :=
  if (get_csv_json_from_folder t.files).1.length ≠ 1 ∨
      (get_csv_json_from_folder t.files).2.length ≠ 1 then
    ([], .ok ())
  else
    let csv_file := joinpath t.path (get_csv_json_from_folder t.files).1.headI
    let json_file := joinpath t.path (get_csv_json_from_folder t.files).2.headI
    let result_file := joinpath out_folder t.name
    let inv : ProcCall :=
      ⟨"BacktestConsole.exe", [json_file, csv_file, result_file ++ "_output.json"]⟩
    ([inv], if env inv = 0 then .ok () else .error .calledProcessError)

/-- Loop body of `console_tests`: iterate over the test folders, running
`run_single_console_test` on each directory entry; an exception raised by one
test stops the loop and propagates. -/
def console_tests_loop (env : ProcCall → Nat) (folders : List TestFolder)
    (out_folder : String) : List ProcCall × Except PyExc Unit :=
  match folders with
  | [] => ([], .ok ())
  | t :: rest =>
    if t.is_dir then
      match run_single_console_test env t out_folder with
      | (invs, .ok _) =>
        let r := console_tests_loop env rest out_folder
        (invs ++ r.1, r.2)
      | (invs, .error e) => (invs, .error e)
    else console_tests_loop env rest out_folder

/-- Embeds `console_tests`: the loop over test folders wrapped in
`try ... except SystemExit`, which is the only handler present.
`Path.mkdir(output_folder, parents=True)` is modelled as succeeding: the
output directory is created fresh under the run's new output root. -/
def console_tests (env : ProcCall → Nat) (folders : List TestFolder)
    (out_folder : String) : List ProcCall × Except PyExc Unit :=
  let r := console_tests_loop env folders out_folder
  match r.2 with
  | .error (.systemExit _) => (r.1, .ok ())
  | _ => r

/-- Environment for the gRPC client/server backend: which OS calls raise
which exception, if any.  `chdirServerExc` is for `os.chdir(grpc_server_folder)`,
`popenServerExc` for `Popen` of the server executable, `chdirClientExc` for
`os.chdir(client_path)` inside a test, and `clientExc` for the `Popen` of the
client executable on a given invocation. -/
structure GrpcEnv where
  chdirServerExc : Option PyExc
  popenServerExc : Option PyExc
  chdirClientExc : Option PyExc
  clientExc : ProcCall → Option PyExc

/-- Embeds `run_single_grpc_test`.  With a wrong number of `.csv` or `.json`
files the test case is skipped.  Otherwise the function changes into the
client directory (which may raise), spawns the client with the json file,
the csv file and the path `<out>/<name>_grpc_output.json` as positional
arguments, waits for it (`communicate`) and kills the finished client
handle; the client is started with `Popen` and no status check, so a
failing client raises nothing. -/
def run_single_grpc_test (genv : GrpcEnv) (t : TestFolder)
    (out_folder : String) : List ProcCall × Except PyExc Unit :=
  if (get_csv_json_from_folder t.files).1.length ≠ 1 ∨
      (get_csv_json_from_folder t.files).2.length ≠ 1 then
    ([], .ok ())
  else
    let csv_file := joinpath t.path (get_csv_json_from_folder t.files).1.headI
    let json_file := joinpath t.path (get_csv_json_from_folder t.files).2.headI
    let result_file := joinpath out_folder t.name
    match genv.chdirClientExc with
    | some e => ([], .error e)
    | none =>
      let inv : ProcCall :=
        ⟨"GrpcEvaluation.exe", [json_file, csv_file, result_file ++ "_grpc_output.json"]⟩
      match genv.clientExc inv with
      | some e => ([], .error e)
      | none => ([inv], .ok ())

/-- Loop body of `grpc_console_tests` over the test folders: an exception
raised by one test stops the loop and propagates to the enclosing `try`. -/
def grpc_tests_loop (genv : GrpcEnv) (folders : List TestFolder)
    (out_folder : String) : List ProcCall × Except PyExc Unit :=
  match folders with
  | [] => ([], .ok ())
  | t :: rest =>
    if t.is_dir then
      match run_single_grpc_test genv t out_folder with
      | (invs, .ok _) =>
        let r := grpc_tests_loop genv rest out_folder
        (invs ++ r.1, r.2)
      | (invs, .error e) => (invs, .error e)
    else grpc_tests_loop genv rest out_folder

/-- Outcome of one run of the gRPC client/server backend: the client
invocations performed, whether the server process was ever started, whether
it is still alive when control leaves `grpc_console_tests`, and the
exception propagating out of the function, if any. -/
structure GrpcResult where
  invs : List ProcCall
  serverStarted : Bool
  serverAlive : Bool
  exc : Option PyExc
deriving DecidableEq, Repr

/-- Exception classes for which `grpc_console_tests` has an `except` handler:
`SystemExit` and `FileNotFoundError`, and no others. -/
def handledByGrpcBackend : PyExc → Bool
  | .systemExit _ => true
  | .fileNotFoundError => true
  | _ => false

/-- Embeds `grpc_console_tests`: change into the server folder, start the
server with `Popen`, sleep, run every directory test folder through
`run_single_grpc_test`, then kill the server.  The surrounding `try` has
exactly two handlers, `except SystemExit` and `except FileNotFoundError`,
each of which calls `process.kill()` and returns; an exception of any other
class propagates without the server being killed.  When the exception is
raised before `process` is bound (by `os.chdir` or by `Popen` itself), the
handler's `process.kill()` itself raises `UnboundLocalError`. -/
def grpc_console_tests (genv : GrpcEnv) (folders : List TestFolder)
    (out_folder : String) : GrpcResult :=
  match genv.chdirServerExc with
  | some e =>
    if handledByGrpcBackend e then ⟨[], false, false, some .unboundLocalError⟩
    else ⟨[], false, false, some e⟩
  | none =>
    match genv.popenServerExc with
    | some e =>
      if handledByGrpcBackend e then ⟨[], false, false, some .unboundLocalError⟩
      else ⟨[], false, false, some e⟩
    | none =>
      let r := grpc_tests_loop genv folders out_folder
      match r.2 with
      | .ok _ => ⟨r.1, true, false, none⟩
      | .error e =>
        if handledByGrpcBackend e then ⟨r.1, true, false, none⟩
        else ⟨r.1, true, true, some e⟩

/-- Field names `check_output_structure` expects in every output artifact. -/
def EXPECTED_FIELDS : List String :=
  ["date", "value", "deltas", "deltasStdDev", "price", "priceStdDev"]

/-- Per-file body of `check_output_structure` on a parseable artifact: the
warnings printed are one per expected field absent from the artifact's
columns, in the fixed order of `EXPECTED_FIELDS`. -/
def check_single_output (columns : List String) : List String :=
  EXPECTED_FIELDS.filter (fun field => ! columns.contains field)

/-- Embeds `check_output_structure` over the files of the output folder, each
given with `some columns` when `pd.read_json` parses it and `none` when it
raises `ValueError` (which the function catches and reports).  Returns the
warning list per file; the `Except` component is always a normal return: the
validator fails nothing. -/
def check_output_structure (files : List (String × Option (List String))) :
    List (String × List String) × Except PyExc Unit :=
  (files.map (fun file =>
    (file.1,
      match file.2 with
      | some columns => check_single_output columns
      | none => [])),
   .ok ())

/-- One zipped project bundle as the materializer sees it: its path, its
base name without extension (`Path.stem`), whether the path exists on disk,
whether opening it as a `ZipFile` succeeds (else `BadZipFile`), and whether
a directory named after the stem exists under the destination folder after
`extractall` has run. -/
structure ZipBundle where
  path : String
  stem : String
  onDisk : Bool
  validArchive : Bool
  rootAfterExtract : Bool
deriving DecidableEq, Repr

/-- Outcome of the `dotnet build` invocation: success, a non-zero exit
(`CalledProcessError`, since the call passes `check=True`), or
`TimeoutExpired`. -/
inductive BuildOutcome where
  | success
  | failed
  | timedOut
deriving DecidableEq, Repr

/-- Embeds `extract_build_solution`.  The whole body sits in a `try` whose
handlers catch `BadZipFile`, `CalledProcessError`, `TimeoutExpired` and
`SystemExit` (the latter raised by `sys.exit(1)` on a missing bundle or a
wrong extracted folder name) and return `(False, None)`; so every one of
these failure modes yields a false ok flag with no project path instead of a
propagating exception.  On success the returned path is
`destination/<stem>`. -/
def extract_build_solution (z : ZipBundle) (build : BuildOutcome)
    (destination_folder_name : String) : Bool × Option String :=
  if z.onDisk = false then (false, none)
  else if z.validArchive = false then (false, none)
  else
    let new_folder := joinpath destination_folder_name z.stem
    if z.rootAfterExtract = false then (false, none)
    else
      match build with
      | .success => (true, some new_folder)
      | .failed => (false, none)
      | .timedOut => (false, none)

/-- Everything about one project that the coordinator's run depends on: its
bundle and build outcome, whether the console binary folder
`BacktestConsole/bin/x64/Debug/net6.0` exists under the solution, whether
the `GrpcBacktestServer` directory exists under the solution, the exit
statuses of console invocations, the gRPC environment, and the test folders
enumerated from the tests root. -/
structure ProjectEnv where
  bundle : ZipBundle
  build : BuildOutcome
  consoleFolderExists : Bool
  serverDirExists : Bool
  consoleEnv : ProcCall → Nat
  grpcEnv : GrpcEnv
  testFolders : List TestFolder

/-- Outcome of `create_output_for_project` for one bundle: whether the build
succeeded, the process invocations performed, whether the gRPC backend ran,
whether its server process is still alive afterwards, whether
`check_output_structure` was reached, and the exception propagating out of
the function, if any. -/
structure ProjectResult where
  built : Bool
  invs : List ProcCall
  grpcRan : Bool
  serverAlive : Bool
  validated : Bool
  exc : Option PyExc
deriving DecidableEq, Repr

/-- Embeds `create_output_for_project`: materialize the bundle; on a false ok
flag do nothing further; otherwise check the console binary folder
(`sys.exit(1)` when absent, uncaught here), run the console backend into
`<out>/<stem>/output`, then, only when a gRPC client path was configured for
the batch and the `GrpcBacktestServer` directory exists in the solution, run
the gRPC backend into the same output folder, and finally validate the
output structure. -/
def create_output_for_project (p : ProjectEnv)
    (build_folder_path out_folder_path : String)
    (grpc_client_path : Option String) : ProjectResult :=
  match extract_build_solution p.bundle p.build build_folder_path with
  | (false, _) => ⟨false, [], false, false, false, none⟩
  | (true, _) =>
    if p.consoleFolderExists = false then
      ⟨true, [], false, false, false, some (.systemExit 1)⟩
    else
      let output_folder := joinpath (joinpath out_folder_path p.bundle.stem) "output"
      match console_tests p.consoleEnv p.testFolders output_folder with
      | (invs, .error e) => ⟨true, invs, false, false, false, some e⟩
      | (invs, .ok _) =>
        match grpc_client_path with
        | none => ⟨true, invs, false, false, true, none⟩
        | some _ =>
          if p.serverDirExists then
            let g := grpc_console_tests p.grpcEnv p.testFolders output_folder
            match g.exc with
            | some e => ⟨true, invs ++ g.invs, true, g.serverAlive, false, some e⟩
            | none => ⟨true, invs ++ g.invs, true, g.serverAlive, true, none⟩
          else ⟨true, invs, false, false, true, none⟩

/-- One entry of the solution folder's `iterdir()` in `run_tests`: the file
name, its extension (`Path.suffix`, compared against `.zip`), and the
project environment used when it is processed. -/
structure BundleEnv where
  filename : String
  suffix : String
  proj : ProjectEnv

/-- Outcome of the whole batch as observed at the top level of the script:
either `sys.exit(code)` reached the top, an uncaught exception crashed the
interpreter, or the batch completed; in each case with the list of bundle
files that were processed. -/
inductive TopResult where
  | exited (code : Nat) (processed : List String)
  | crashed (e : PyExc) (processed : List String)
  | completed (processed : List String)
deriving DecidableEq, Repr

/-- Process exit status corresponding to a `TopResult`: the `SystemExit`
code, 1 for an uncaught exception (CPython's behaviour), 0 on normal
completion. -/
def TopResult.exitCode : TopResult → Nat
  | .exited c _ => c
  | .crashed _ _ => 1
  | .completed _ => 0

/-- Bundle files processed before the batch ended. -/
def TopResult.processed : TopResult → List String
  | .exited _ ps => ps
  | .crashed _ ps => ps
  | .completed ps => ps

/-- Record one more processed bundle file in front of a batch outcome. -/
def prependProcessed (f : String) : TopResult → TopResult
  | .exited c ps => .exited c (f :: ps)
  | .crashed e ps => .crashed e (f :: ps)
  | .completed ps => .completed (f :: ps)

/-- Embeds the bundle loop at the end of `run_tests`: for every entry of the
solution folder whose suffix is `.zip`, run `create_output_for_project`; an
exception propagating out of it (a `sys.exit` or an uncaught error) aborts
the loop and reaches the top level. -/
def process_bundles (build_folder_path out_folder_path : String)
    (grpc_client_path : Option String) : List BundleEnv → TopResult
  | [] => .completed []
  | b :: rest =>
    if b.suffix = ".zip" then
      match (create_output_for_project b.proj build_folder_path out_folder_path
          grpc_client_path).exc with
      | some (.systemExit c) => .exited c [b.filename]
      | some e => .crashed e [b.filename]
      | none =>
        prependProcessed b.filename
          (process_bundles build_folder_path out_folder_path grpc_client_path rest)
    else process_bundles build_folder_path out_folder_path grpc_client_path rest

/-- Filesystem and process events performed by `create_grpc_client_path`, in
order: `shutil.rmtree`, `shutil.copytree`, `os.chdir`, and the
`dotnet build` of the client. -/
inductive FsEvent where
  | rmtree (p : String)
  | copytree (src dst : String)
  | chdir (p : String)
  | dotnetBuild
deriving DecidableEq, Repr

/-- Embeds `create_grpc_client_path`: when the staging folder already exists
it is removed with `shutil.rmtree` first; the `GrpcEvaluation` source tree
under the current working directory is then copied to the staging folder and
built there (`check=True`, so a failed build raises `CalledProcessError`);
on success the returned client path is
`<staging>/GrpcEvaluation/bin/x64/Debug/net6.0`. -/
def create_grpc_client_path (stagingExists buildOk : Bool)
    (cwd grpc_folder_path : String) : List FsEvent × Except PyExc String :=
  let client_source_path := joinpath cwd "GrpcEvaluation"
  let events :=
    (if stagingExists then [FsEvent.rmtree grpc_folder_path] else []) ++
    [FsEvent.copytree client_source_path grpc_folder_path,
     FsEvent.chdir grpc_folder_path, FsEvent.dotnetBuild]
  if buildOk then
    (events, .ok (joinpath grpc_folder_path "GrpcEvaluation/bin/x64/Debug/net6.0"))
  else (events, .error .calledProcessError)

/-- Command-line arguments of `run_tests` after `argparse`: each string flag
is `none` when absent, and Python truthiness also treats an empty string as
missing. -/
structure Args where
  sln : Option String
  tests : Option String
  build : Option String
  out : Option String
  grpc : Option String
  force : Bool

/-- Python falsiness of an optional string argument: absent or empty. -/
def falsy : Option String → Bool
  | none => true
  | some s => s.isEmpty

/-- External state `run_tests` runs against: the current working directory,
whether the gRPC staging folder already exists, whether the client build
succeeds, whether the output folder already exists, and the entries of the
solution folder. -/
structure BatchEnv where
  cwd : String
  stagingExists : Bool
  grpcBuildOk : Bool
  outExists : Bool
  bundles : List BundleEnv

/-- Embeds `run_tests`: `sys.exit(1)` on any missing required flag; then the
optional gRPC client staging and build (before the output-folder check; its
`CalledProcessError` on a failed build is uncaught); then `sys.exit(1)` when
the output folder exists and `--force` is not set (with `--force` it is
removed first); then the bundle loop. -/
def run_tests (a : Args) (env : BatchEnv) : TopResult :=
  if falsy a.sln then .exited 1 []
  else if falsy a.tests then .exited 1 []
  else if falsy a.build then .exited 1 []
  else if falsy a.out then .exited 1 []
  else
    match
      (if falsy a.grpc then Except.ok none
       else
         match (create_grpc_client_path env.stagingExists env.grpcBuildOk env.cwd
             ((a.grpc).getD "")).2 with
         | .ok p => Except.ok (some p)
         | .error e => Except.error e : Except PyExc (Option String)) with
    | .error e => .crashed e []
    | .ok grpc_client_path =>
      if env.outExists && ! a.force then .exited 1 []
      else
        process_bundles ((a.build).getD "") ((a.out).getD "") grpc_client_path
          env.bundles

/-- C6: for every parseable result artifact the validator warns about exactly
the expected fields absent from its columns and nothing else; on the crafted
example with columns date, value, price it reports exactly deltas,
deltasStdDev, priceStdDev; and the validator always returns normally, never
raising and never failing the run. -/
theorem validator_reports_exactly_missing_fields (columns : List String)
    (f : String) (files : List (String × Option (List String))) :
    (f ∈ check_single_output columns ↔ f ∈ EXPECTED_FIELDS ∧ ¬ f ∈ columns) ∧
    check_single_output ["date", "value", "price"] =
      ["deltas", "deltasStdDev", "priceStdDev"] ∧
    (check_output_structure files).2 = .ok () := by
  refine ⟨?_, by decide, rfl⟩
  simp [check_single_output, List.mem_filter]

/-- Sample valid test-case folder: one `.csv` and one `.json` file. -/
def tfA : TestFolder := ⟨"case_01", "tests/case_01", true, ["data.csv", "params.json"]⟩

/-- Second sample valid test-case folder. -/
def tfB : TestFolder := ⟨"case_02", "tests/case_02", true, ["data.csv", "params.json"]⟩

/-- Sample invalid test-case folder: no `.csv` and no `.json` file. -/
def tfBad : TestFolder := ⟨"case_bad", "tests/case_bad", true, []⟩

/-- Console environment in which every invocation exits with status 0. -/
def envZero : ProcCall → Nat := fun _ => 0

/-- Console environment in which every invocation exits with status 1. -/
def envNonzero : ProcCall → Nat := fun _ => 1

/-- gRPC environment with no OS-level failure anywhere. -/
def genvOk : GrpcEnv := ⟨none, none, none, fun _ => none⟩

/-- gRPC environment in which spawning the client raises `PermissionError`,
an exception class the backend has no handler for. -/
def genvPerm : GrpcEnv := ⟨none, none, none, fun _ => some (.otherError "PermissionError")⟩

/-- C1 counterexample: when spawning the client for a test case raises
`PermissionError` — an exception class with no `except` handler in
`grpc_console_tests` — the exception propagates out of the backend while the
started server process is still alive, refuting the claim that the server is
terminated on every exit path. -/
theorem grpc_server_left_running_cx :
    (grpc_console_tests genvPerm [tfA] "out").serverAlive = true ∧
    (grpc_console_tests genvPerm [tfA] "out").exc =
      some (.otherError "PermissionError") := by
  constructor <;> rfl

/-- C1 amended: the server process is still alive when `grpc_console_tests`
returns control exactly when the server was started and an exception of a
class other than `SystemExit` and `FileNotFoundError` — the only two classes
the backend handles — propagates out; on normal completion and on the two
handled classes the server is killed. -/
theorem grpc_server_cleanup_amended (genv : GrpcEnv) (folders : List TestFolder)
    (out_folder : String) :
    (grpc_console_tests genv folders out_folder).serverAlive = true ↔
      ((grpc_console_tests genv folders out_folder).serverStarted = true ∧
        ∃ e, (grpc_console_tests genv folders out_folder).exc = some e ∧
          handledByGrpcBackend e = false) := by
  cases hc : genv.chdirServerExc with
  | some e =>
    cases he : handledByGrpcBackend e <;> simp [grpc_console_tests, hc, he]
  | none =>
    cases hp : genv.popenServerExc with
    | some e =>
      cases he : handledByGrpcBackend e <;> simp [grpc_console_tests, hc, hp, he]
    | none =>
      cases hr : (grpc_tests_loop genv folders out_folder).2 with
      | ok u => simp [grpc_console_tests, hc, hp, hr]
      | error e =>
        cases he : handledByGrpcBackend e <;>
          simp [grpc_console_tests, hc, hp, hr, he]

/-- C2 counterexample: two valid test cases in an environment where every
console invocation exits with status 1.  The first test's
`CalledProcessError` propagates out of `console_tests` (which catches only
`SystemExit`), and the second test case is never invoked — refuting the
claim that the run continues with the next test case. -/
theorem console_failure_aborts_run_cx :
    (console_tests envNonzero [tfA, tfB] "out").2 =
      .error .calledProcessError ∧
    (console_tests envNonzero [tfA, tfB] "out").1 =
      [⟨"BacktestConsole.exe",
        ["tests/case_01/params.json", "tests/case_01/data.csv",
         "out/case_01_output.json"]⟩] := by
  constructor <;> rfl

/-- C2 amended: when a test case's console invocation exits with a non-zero
status, `subprocess.run(check=True)` raises `CalledProcessError`, which
`console_tests` does not catch (its only handler is for `SystemExit`): the
error propagates out of the Local Process backend and none of the remaining
test cases is executed. -/
theorem console_failure_propagates (env : ProcCall → Nat) (t : TestFolder)
    (rest : List TestFolder) (out_folder : String)
    (hdir : t.is_dir = true)
    (hrun : (run_single_console_test env t out_folder).2 =
      .error .calledProcessError) :
    console_tests env (t :: rest) out_folder =
      ((run_single_console_test env t out_folder).1,
       .error .calledProcessError) := by
  rcases h : run_single_console_test env t out_folder with ⟨invs, r⟩
  rw [h] at hrun
  simp only at hrun
  subst hrun
  simp [console_tests, console_tests_loop, hdir, h]

/-- Closed witness for the amended C2 theorem at a concrete input. -/
theorem console_failure_propagates_w :
    console_tests envNonzero [tfA, tfB] "out" =
      ((run_single_console_test envNonzero tfA "out").1,
       .error .calledProcessError) :=
  console_failure_propagates envNonzero tfA [tfB] "out" rfl rfl

/-- One of the five materialization failure modes of a bundle: the bundle
file is absent, the archive is corrupt, the expected root folder is missing
after extraction, the build exits non-zero, or the build times out. -/
def materializationFailure (z : ZipBundle) (b : BuildOutcome) : Prop :=
  z.onDisk = false ∨ z.validArchive = false ∨ z.rootAfterExtract = false ∨
  b = .failed ∨ b = .timedOut

/-- Under any of the five materialization failure modes,
`extract_build_solution` returns a false ok flag with no project path rather
than letting an exception escape. -/
lemma extract_build_solution_of_failure (z : ZipBundle) (bo : BuildOutcome)
    (dest : String) (h : materializationFailure z bo) :
    extract_build_solution z bo dest = (false, none) := by
  rcases h with h | h | h | h | h <;>
    cases hd : z.onDisk <;> cases hv : z.validArchive <;>
    cases hr : z.rootAfterExtract <;> cases bo <;>
    simp_all [extract_build_solution]

/-- Bundle missing on disk. -/
def zMissing : ZipBundle := ⟨"sln/Group_1.zip", "Group_1", false, true, true⟩

/-- Bundle that materializes and builds fine. -/
def zGood : ZipBundle := ⟨"sln/Group_2.zip", "Group_2", true, true, true⟩

/-- Bundle whose root folder is absent after extraction. -/
def zNoRoot : ZipBundle := ⟨"sln/Group_3.zip", "Group_3", true, true, false⟩

/-- Project environment around the missing bundle. -/
def projMissing : ProjectEnv := ⟨zMissing, .success, true, true, envZero, genvOk, []⟩

/-- Project environment around the good bundle, without a gRPC server
directory in the solution. -/
def projGood : ProjectEnv := ⟨zGood, .success, true, false, envZero, genvOk, []⟩

/-- Batch entry for the missing bundle. -/
def bundleMissing : BundleEnv := ⟨"Group_1.zip", ".zip", projMissing⟩

/-- Batch entry for the good bundle. -/
def bundleGood : BundleEnv := ⟨"Group_2.zip", ".zip", projGood⟩

/-- C3: a materialization failure for one bundle (missing bundle, corrupt
archive, wrong extracted-folder layout, build failure or build timeout)
makes `extract_build_solution` return a false ok flag instead of raising,
and the batch loop proceeds with the remaining bundles exactly as it would
have without the failed bundle, recording it as processed. -/
theorem materialization_failure_isolated (dest oroot : String)
    (gc : Option String) (b : BundleEnv) (rest : List BundleEnv)
    (hzip : b.suffix = ".zip")
    (hfail : materializationFailure b.proj.bundle b.proj.build) :
    extract_build_solution b.proj.bundle b.proj.build dest = (false, none) ∧
    process_bundles dest oroot gc (b :: rest) =
      prependProcessed b.filename (process_bundles dest oroot gc rest) := by
  have hx := extract_build_solution_of_failure b.proj.bundle b.proj.build dest hfail
  refine ⟨hx, ?_⟩
  simp [process_bundles, create_output_for_project, hzip, hx]

/-- Closed witness for C3: the batch with a missing first bundle still
processes the second bundle. -/
theorem materialization_failure_isolated_w :
    extract_build_solution zMissing .success "build" = (false, none) ∧
    process_bundles "build" "out" none [bundleMissing, bundleGood] =
      prependProcessed "Group_1.zip"
        (process_bundles "build" "out" none [bundleGood]) :=
  materialization_failure_isolated "build" "out" none bundleMissing
    [bundleGood] rfl (Or.inl rfl)

/-- C9: `extract_build_solution` reports success only if the directory named
after the bundle's stem exists under the destination directory after
extraction; when that directory is absent the result is a failure with no
project path. -/
theorem extract_requires_root_folder (z : ZipBundle) (bo : BuildOutcome)
    (dest : String) :
    ((extract_build_solution z bo dest).1 = true → z.rootAfterExtract = true) ∧
    (z.rootAfterExtract = false →
      extract_build_solution z bo dest = (false, none)) := by
  constructor
  · intro h
    cases hr : z.rootAfterExtract
    · rw [extract_build_solution_of_failure z bo dest
        (Or.inr (Or.inr (Or.inl hr)))] at h
      simp at h
    · rfl
  · intro hr
    exact extract_build_solution_of_failure z bo dest (Or.inr (Or.inr (Or.inl hr)))

/-- Closed witness for C9 at a bundle whose root folder is absent after
extraction. -/
theorem extract_requires_root_folder_w :
    extract_build_solution zNoRoot .success "build" = (false, none) :=
  (extract_requires_root_folder zNoRoot .success "build").2 rfl

/-- C4: for a test case with exactly one `.csv` file and one `.json` file,
the Local Process backend spawns exactly one console process whose three
positional arguments are the parameter-file path, the data-file path and the
output path `<outputDir>/<testCaseName>_output.json`, and the Client/Server
backend spawns exactly one client process with the same parameter and data
files and output path `<outputDir>/<testCaseName>_grpc_output.json`; each
run therefore produces exactly the one result artifact at that path. -/
theorem valid_test_single_artifact (env : ProcCall → Nat) (genv : GrpcEnv)
    (t : TestFolder) (out_folder c j : String)
    (hc : (get_csv_json_from_folder t.files).1 = [c])
    (hj : (get_csv_json_from_folder t.files).2 = [j])
    (hcd : genv.chdirClientExc = none)
    (hcli : ∀ inv, genv.clientExc inv = none) :
    (run_single_console_test env t out_folder).1 =
      [⟨"BacktestConsole.exe",
        [joinpath t.path j, joinpath t.path c,
         joinpath out_folder t.name ++ "_output.json"]⟩] ∧
    (run_single_grpc_test genv t out_folder).1 =
      [⟨"GrpcEvaluation.exe",
        [joinpath t.path j, joinpath t.path c,
         joinpath out_folder t.name ++ "_grpc_output.json"]⟩] := by
  constructor
  · simp [run_single_console_test, hc, hj]
  · simp [run_single_grpc_test, hc, hj, hcd, hcli]

/-- Closed witness for C4 on a concrete valid test case. -/
theorem valid_test_single_artifact_w :
    (run_single_console_test envZero tfA "out").1 =
      [⟨"BacktestConsole.exe",
        ["tests/case_01/params.json", "tests/case_01/data.csv",
         "out/case_01_output.json"]⟩] ∧
    (run_single_grpc_test genvOk tfA "out").1 =
      [⟨"GrpcEvaluation.exe",
        ["tests/case_01/params.json", "tests/case_01/data.csv",
         "out/case_01_grpc_output.json"]⟩] :=
  valid_test_single_artifact envZero genvOk tfA "out" "data.csv" "params.json"
    rfl rfl rfl (fun _ => rfl)

/-- C5: a test case with a number of `.csv` files or of `.json` files other
than one is skipped by both backends: no process is spawned, the function
returns normally (no exception propagates), and each backend's loop over the
remaining test cases behaves exactly as if the invalid test case were not
present. -/
theorem invalid_test_skipped (env : ProcCall → Nat) (genv : GrpcEnv)
    (t : TestFolder) (rest : List TestFolder) (out_folder : String)
    (h : (get_csv_json_from_folder t.files).1.length ≠ 1 ∨
         (get_csv_json_from_folder t.files).2.length ≠ 1) :
    run_single_console_test env t out_folder = ([], .ok ()) ∧
    run_single_grpc_test genv t out_folder = ([], .ok ()) ∧
    console_tests_loop env (t :: rest) out_folder =
      console_tests_loop env rest out_folder ∧
    grpc_tests_loop genv (t :: rest) out_folder =
      grpc_tests_loop genv rest out_folder := by
  have h1 : run_single_console_test env t out_folder = ([], .ok ()) := by
    unfold run_single_console_test
    split
    · rfl
    · rename_i hcond
      exact absurd h hcond
  have h2 : run_single_grpc_test genv t out_folder = ([], .ok ()) := by
    unfold run_single_grpc_test
    split
    · rfl
    · rename_i hcond
      exact absurd h hcond
  refine ⟨h1, h2, ?_, ?_⟩
  · cases hd : t.is_dir <;> simp [console_tests_loop, hd, h1]
  · cases hd : t.is_dir <;> simp [grpc_tests_loop, hd, h2]

/-- Closed witness for C5 on a concrete test case with no csv and no json
file. -/
theorem invalid_test_skipped_w :
    run_single_console_test envZero tfBad "out" = ([], .ok ()) ∧
    run_single_grpc_test genvOk tfBad "out" = ([], .ok ()) ∧
    console_tests_loop envZero [tfBad, tfA] "out" =
      console_tests_loop envZero [tfA] "out" ∧
    grpc_tests_loop genvOk [tfBad, tfA] "out" =
      grpc_tests_loop genvOk [tfA] "out" :=
  invalid_test_skipped envZero genvOk tfBad [tfA] "out" (by decide)

/-- C7: the batch setup exits with status 1 whenever one of the required
flags is missing (it calls `sys.exit(1)` before anything else), and whenever
the output directory already exists without the force flag the process also
ends with status 1 with no bundle processed (either through `sys.exit(1)`,
or — when the optional gRPC client build crashes first — through an uncaught
exception, which also terminates CPython with status 1). -/
theorem run_tests_setup_failures (a : Args) (env : BatchEnv) :
    ((falsy a.sln = true ∨ falsy a.tests = true ∨ falsy a.build = true ∨
        falsy a.out = true) → run_tests a env = .exited 1 []) ∧
    (env.outExists = true → a.force = false →
      (run_tests a env).exitCode = 1 ∧ (run_tests a env).processed = []) := by
  constructor
  · intro h
    rcases h with h | h | h | h <;>
      cases h1 : falsy a.sln <;> cases h2 : falsy a.tests <;>
      cases h3 : falsy a.build <;> cases h4 : falsy a.out <;>
      simp_all [run_tests]
  · intro ho hf
    cases h1 : falsy a.sln <;> cases h2 : falsy a.tests <;>
      cases h3 : falsy a.build <;> cases h4 : falsy a.out <;>
      cases h5 : falsy a.grpc <;> cases hb : env.grpcBuildOk <;>
      simp_all [run_tests, create_grpc_client_path, TopResult.exitCode,
        TopResult.processed]

/-- Argument set missing the required solution flag. -/
def argsNoSln : Args := ⟨none, some "tests", some "build", some "out", none, false⟩

/-- Complete argument set without the force flag. -/
def argsFull : Args :=
  ⟨some "sln", some "tests", some "build", some "out", none, false⟩

/-- External state with no pre-existing output folder. -/
def envPlain : BatchEnv := ⟨"cwd", false, true, false, []⟩

/-- External state whose output folder already exists. -/
def envOutThere : BatchEnv := ⟨"cwd", false, true, true, []⟩

/-- Closed witness for C7: a missing `--sln` flag exits with code 1, and a
pre-existing output folder without force gives exit status 1 with no bundle
processed. -/
theorem run_tests_setup_failures_w :
    run_tests argsNoSln envPlain = .exited 1 [] ∧
    ((run_tests argsFull envOutThere).exitCode = 1 ∧
      (run_tests argsFull envOutThere).processed = []) :=
  ⟨(run_tests_setup_failures argsNoSln envPlain).1 (Or.inl rfl),
   (run_tests_setup_failures argsFull envOutThere).2 rfl rfl⟩

/-- C8: the Client/Server backend runs for a project only when a gRPC client
path was configured for the batch and the `GrpcBacktestServer` directory
exists inside the built project; when that directory is absent the backend
is skipped without any exception, and the project's local-process run and
its output validation still complete normally. -/
theorem grpc_backend_gating (p : ProjectEnv) (bf oroot : String)
    (gc : Option String) :
    ((create_output_for_project p bf oroot gc).grpcRan = true →
      gc ≠ none ∧ p.serverDirExists = true) ∧
    (p.serverDirExists = false →
      (extract_build_solution p.bundle p.build bf).1 = true →
      p.consoleFolderExists = true →
      (console_tests p.consoleEnv p.testFolders
          (joinpath (joinpath oroot p.bundle.stem) "output")).2 = .ok () →
      (create_output_for_project p bf oroot gc).grpcRan = false ∧
      (create_output_for_project p bf oroot gc).validated = true ∧
      (create_output_for_project p bf oroot gc).exc = none ∧
      (create_output_for_project p bf oroot gc).serverAlive = false) := by
  constructor
  · intro hran
    rcases hx : extract_build_solution p.bundle p.build bf with ⟨bOk, sol⟩
    rcases hct : console_tests p.consoleEnv p.testFolders
        (joinpath (joinpath oroot p.bundle.stem) "output") with ⟨invs, rc⟩
    rcases hg : grpc_console_tests p.grpcEnv p.testFolders
        (joinpath (joinpath oroot p.bundle.stem) "output") with ⟨ginvs, gs, ga, gexc⟩
    cases bOk <;> cases rc <;> cases gc <;> cases gexc <;>
      cases hcf : p.consoleFolderExists <;> cases hs : p.serverDirExists <;>
      simp_all [create_output_for_project]
  · intro hs hb hcf hok
    rcases hx : extract_build_solution p.bundle p.build bf with ⟨bOk, sol⟩
    rw [hx] at hb
    rcases hct : console_tests p.consoleEnv p.testFolders
        (joinpath (joinpath oroot p.bundle.stem) "output") with ⟨invs, rc⟩
    rw [hct] at hok
    cases bOk <;> cases rc <;> cases gc <;>
      simp_all [create_output_for_project]

/-- Closed witness for C8: with a configured client path but no server
directory in the solution, the gRPC backend is skipped and validation still
runs with no exception. -/
theorem grpc_backend_gating_w :
    (create_output_for_project projGood "build" "out" (some "client")).grpcRan
      = false ∧
    (create_output_for_project projGood "build" "out" (some "client")).validated
      = true ∧
    (create_output_for_project projGood "build" "out" (some "client")).exc
      = none ∧
    (create_output_for_project projGood "build" "out" (some "client")).serverAlive
      = false :=
  (grpc_backend_gating projGood "build" "out" (some "client")).2 rfl rfl rfl rfl

/-- C10: when the gRPC staging directory already exists,
`create_grpc_client_path` removes it (with its whole tree) before the fresh
copy of the `GrpcEvaluation` sources is placed there and built, and whenever
the function returns a client path it is the fixed subpath
`GrpcEvaluation/bin/x64/Debug/net6.0` under the staging directory. -/
theorem grpc_client_staging_behaviour (stagingExists buildOk : Bool)
    (cwd gp : String) :
    (stagingExists = true →
      (create_grpc_client_path stagingExists buildOk cwd gp).1 =
        [FsEvent.rmtree gp,
         FsEvent.copytree (joinpath cwd "GrpcEvaluation") gp,
         FsEvent.chdir gp, FsEvent.dotnetBuild]) ∧
    (∀ p, (create_grpc_client_path stagingExists buildOk cwd gp).2 = .ok p →
      p = joinpath gp "GrpcEvaluation/bin/x64/Debug/net6.0") := by
  constructor
  · intro hs
    cases buildOk <;> simp [create_grpc_client_path, hs]
  · intro p hp
    cases buildOk <;> simp_all [create_grpc_client_path]

/-- Closed witness for C10 at a concrete pre-existing staging directory. -/
theorem grpc_client_staging_behaviour_w :
    (create_grpc_client_path true true "work" "stage").1 =
      [FsEvent.rmtree "stage", FsEvent.copytree "work/GrpcEvaluation" "stage",
       FsEvent.chdir "stage", FsEvent.dotnetBuild] ∧
    "stage/GrpcEvaluation/bin/x64/Debug/net6.0" =
      joinpath "stage" "GrpcEvaluation/bin/x64/Debug/net6.0" :=
  ⟨(grpc_client_staging_behaviour true true "work" "stage").1 rfl,
   (grpc_client_staging_behaviour true true "work" "stage").2
     "stage/GrpcEvaluation/bin/x64/Debug/net6.0" rfl⟩

end Backtest
